import Mathlib

/-!
Verification development for the model inference benchmarking harness
of the study-buddy repository (src/benchmark_models.py).

The Python module is embedded shallowly:

* pure computations (input synthesis, statistics over the collected
  timings, path handling) become Lean functions over List, Nat and Rat;
* the interaction with the inference backend (tf.lite.Interpreter) and
  with the wall clock is abstracted into a per-artifact oracle
  (ModelEnv): loading may raise, each invocation either raises or takes
  some wall-clock time, and tracemalloc observes some peak delta over
  the timed window;
* fallible Python code returns Except PyError;
* the process-wide tracemalloc state is threaded explicitly as a Bool
  (tracing active or not);
* the order of the side effects of benchmark_model is recorded as a
  trace of BenchEvent values.
-/

/-- Element types a TFLite artifact can declare for its input tensor. -/
inductive DType
  | float32
  | float64
  | uint8
  | int32
  deriving DecidableEq

/-- Python exceptions that the embedded code can raise.
nameError models a NameError on an undefined global; valueError models
the ValueError that numpy reductions raise on empty input; and
inferenceError models any exception raised while loading or invoking an
artifact (the condition the spec taxonomy calls InferenceError). -/
inductive PyError
  | nameError (n : String)
  | valueError (msg : String)
  | inferenceError (msg : String)
  deriving DecidableEq

/-- Rendering of an exception as str(e) does in the except handler of
run_all_benchmarks (line 147). -/
def PyError.str : PyError → String
  | .nameError n => "name " ++ n ++ " is not defined"
  | .valueError msg => msg
  | .inferenceError msg => msg

/-- Result of the statistics lines 110-113 of benchmark_models.py.
np.std (line 111) computes the square root of the population variance;
since the square root of a rational is not rational we carry the
population variance in the field var, and np.std of the timings is zero
exactly when var is zero. -/
structure NpStats where
  mean : ℚ
  var : ℚ
  min : ℚ
  max : ℚ
  deriving DecidableEq

/-- Observable steps of one run of benchmark_model, in program order:
loading the artifact, the k-th warm-up invocation, tracemalloc.start
(line 86, together with the baseline capture on line 87), the k-th timed
invocation, and tracemalloc.stop (line 107). -/
inductive BenchEvent
  | load
  | warmupInvoke (k : Nat)
  | memStart
  | timedInvoke (k : Nat)
  | memStop
  deriving DecidableEq

/-- Synthetic input tensor as built on lines 59-69: a shape, an element
type and the flattened element values. -/
structure TensorValue where
  shape : List Nat
  dtype : DType
  values : List ℚ
  deriving DecidableEq

/-- Oracle describing one artifact and the behaviour of the external
world while benchmarking it.  loadError is some msg when constructing
the tf.lite.Interpreter or allocate_tensors raises; invokeOutcome k is
some msg when the k-th invocation overall (warm-up invocations first,
then timed ones, sharing one counter) raises inside
set_tensor/invoke/get_tensor; invokeDuration k is the wall-clock time in
seconds of the k-th invocation when it succeeds; tracePeakDelta is, in
bytes, the peak traced memory minus the baseline that tracemalloc
reports over the timed window; randStream feeds np.random.random. -/
structure ModelEnv where
  loadError : Option String
  inputShape : List Nat
  inputDtype : DType
  invokeOutcome : Nat → Option String
  invokeDuration : Nat → ℚ
  tracePeakDelta : Nat
  randStream : Nat → ℚ

/-- Fields of the ModelBenchmark object (lines 21-25). -/
structure ModelBenchmark where
  model_dir : String
  iterations : Nat
  warmup : Nat
  models : List String
  deriving DecidableEq

/-- Dictionary returned by benchmark_model (lines 123-130).  The field
var_time carries the population variance whose square root np.std
reports, see NpStats. -/
structure BenchResult where
  model_name : String
  avg_time : ℚ
  var_time : ℚ
  min_time : ℚ
  max_time : ℚ
  peak_memory : ℚ
  deriving DecidableEq

deriving instance DecidableEq for Except

/-- Everything one call of benchmark_model leaves behind: the object
(selfAfter, since Python methods could assign to self), the process-wide
tracemalloc flag, the event trace, and the returned dictionary or the
raised exception. -/
structure BenchOutcome where
  selfAfter : ModelBenchmark
  tracingAfter : Bool
  trace : List BenchEvent
  result : Except PyError BenchResult
  deriving DecidableEq

/-- Everything one call of run_all_benchmarks leaves behind, with the
lines it printed at the loop level. -/
structure RunOutcome where
  selfAfter : ModelBenchmark
  tracingAfter : Bool
  output : List String
  result : Except PyError (List BenchResult)
  deriving DecidableEq

/-- Embedding of os.path.basename for the slash-separated paths the
script builds: the characters after the last slash. -/
def basename (p : String) : String :=
  String.mk (p.data.foldl (fun acc c => if c = Char.ofNat 47 then [] else acc ++ [c]) [])

/-- Embedding of the Python test file.endswith(suff), expressed on the
character lists of the two strings. -/
def strEndsWith (s suff : String) : Bool :=
  List.isSuffixOf suff.data s.data

/-- Embedding of _find_models (lines 27-33): keep the directory entries
ending in .tflite, in listing order, joined to the directory path.  The
directory listing os.listdir returns is an argument. -/
def findModels (model_dir : String) (listing : List String) : List String :=
  (listing.filter (fun file => strEndsWith file (".tflite"))).map
    (fun file => model_dir ++ "/" ++ file)

/-- Embedding of ModelBenchmark.__init__ (lines 21-25). -/
def ModelBenchmark.init (model_dir : String) (iterations warmup : Nat)
    (listing : List String) : ModelBenchmark :=
  { model_dir := model_dir
    iterations := iterations
    warmup := warmup
    models := findModels model_dir listing }

/-- np.mean of a sequence of rationals (line 110); division by zero is
the junk value zero, never reached on the paths the program takes. -/
def npMean (ts : List ℚ) : ℚ := ts.sum / (ts.length : ℚ)

/-- Population variance of a sequence; np.std on line 111 is its square
root. -/
def npVar (ts : List ℚ) : ℚ :=
  ((ts.map (fun t => (t - npMean ts) ^ 2)).sum) / (ts.length : ℚ)

/-- np.min over a nonempty list (line 112); the empty case is never
consulted because aggregateStats raises first, as np.min itself does. -/
def listMin : List ℚ → ℚ
  | [] => 0
  | t :: rest => rest.foldl min t

/-- np.max over a nonempty list (line 113). -/
def listMax : List ℚ → ℚ
  | [] => 0
  | t :: rest => rest.foldl max t

/-- Exception that the aggregation step raises on zero timings: np.min
raises this ValueError on a zero-size array.  The spec taxonomy names
this condition EmptyInputError. -/
def emptyInputError : PyError :=
  PyError.valueError ("zero-size array to reduction operation minimum which has no identity")

/-- Statistics aggregation step, lines 110-113.  On an empty timing
sequence np.mean and np.std return NaN without raising and np.min then
raises ValueError, so the step as a whole raises and produces no
statistics record; on a nonempty sequence all four reductions are
total. -/
def aggregateStats (ts : List ℚ) : Except PyError NpStats :=
  match ts with
  | [] => Except.error emptyInputError
  | t :: rest =>
      Except.ok
        { mean := npMean (t :: rest)
          var := npVar (t :: rest)
          min := listMin (t :: rest)
          max := listMax (t :: rest) }

/-- Input synthesis, lines 63-69.  The source branches on whether the
declared shape has rank 4 (image-like, NHWC) but both branches build the
same array np.random.random(input_shape).astype(np.float32): a tensor of
the declared shape whose element k is the k-th fresh draw of the random
stream, cast to float32 whatever the declared element type is.  The
if/else of the source is kept. -/
def synthesizeInput (rand : Nat → ℚ) (input_shape : List Nat) : TensorValue :=
  if input_shape.length = 4 then
    { shape := input_shape
      dtype := DType.float32
      values := (List.range input_shape.prod).map rand }
  else
    { shape := input_shape
      dtype := DType.float32
      values := (List.range input_shape.prod).map rand }

/-- Loop of count invocations starting at invocation counter start: each
step performs set_tensor/invoke/get_tensor through the oracle.  Returns
the attempted invocation counters (the loop stops at the first raise, as
a Python for-loop does when the body raises) and either the first
exception or the list of the wall-clock durations in seconds, in
invocation order. -/
def runCallsTrace (env : ModelEnv) : Nat → Nat → List Nat × Except PyError (List ℚ)
  | _start, 0 => ([], Except.ok [])
  | start, n + 1 =>
      match env.invokeOutcome start with
      | some msg => ([start], Except.error (PyError.inferenceError msg))
      | none =>
          match runCallsTrace env (start + 1) n with
          | (idxs, Except.error e) => (start :: idxs, Except.error e)
          | (idxs, Except.ok ds) =>
              (start :: idxs, Except.ok (env.invokeDuration start :: ds))

/-- Timed loop of lines 90-103 in isolation: the iterations invocations
that follow the warmup warm-up invocations, each duration scaled by 1000
into the milliseconds appended to inference_times (line 100). -/
def inferenceTimes (env : ModelEnv) (warmup iterations : Nat) : Except PyError (List ℚ) :=
  match runCallsTrace env warmup iterations with
  | (_, Except.error e) => Except.error e
  | (_, Except.ok ds) => Except.ok (ds.map (fun d => d * 1000))

/-- Embedding of ModelBenchmark.benchmark_model (lines 47-130).
Program order: load the artifact (may raise), synthesize the input, run
self.warmup warm-up invocations discarding results, tracemalloc.start
and baseline capture, run self.iterations timed invocations collecting
inference_times, read the peak delta, tracemalloc.stop, aggregate the
statistics (raises on zero timings), and build the result dictionary
with peak_memory converted to megabytes (line 129).  There is no
try/finally around the timed window: when a timed invocation raises, the
exception propagates before line 107 and tracemalloc stays active.  The
per-call progress printing is not modelled. -/
def benchmarkModel (self : ModelBenchmark) (model_path : String) (env : ModelEnv)
    (tracingIn : Bool) : BenchOutcome :=
  match env.loadError with
  | some msg =>
      { selfAfter := self
        tracingAfter := tracingIn
        trace := [BenchEvent.load]
        result := Except.error (PyError.inferenceError msg) }
  | none =>
      match runCallsTrace env 0 self.warmup with
      | (wIdxs, Except.error e) =>
          { selfAfter := self
            tracingAfter := tracingIn
            trace := BenchEvent.load :: wIdxs.map BenchEvent.warmupInvoke
            result := Except.error e }
      | (wIdxs, Except.ok _) =>
          match runCallsTrace env self.warmup self.iterations with
          | (tIdxs, Except.error e) =>
              { selfAfter := self
                tracingAfter := true
                trace := BenchEvent.load :: wIdxs.map BenchEvent.warmupInvoke
                  ++ BenchEvent.memStart :: tIdxs.map BenchEvent.timedInvoke
                result := Except.error e }
          | (tIdxs, Except.ok durations) =>
              match aggregateStats (durations.map (fun d => d * 1000)) with
              | Except.error e =>
                  { selfAfter := self
                    tracingAfter := false
                    trace := BenchEvent.load :: wIdxs.map BenchEvent.warmupInvoke
                      ++ BenchEvent.memStart :: tIdxs.map BenchEvent.timedInvoke
                      ++ [BenchEvent.memStop]
                    result := Except.error e }
              | Except.ok s =>
                  { selfAfter := self
                    tracingAfter := false
                    trace := BenchEvent.load :: wIdxs.map BenchEvent.warmupInvoke
                      ++ BenchEvent.memStart :: tIdxs.map BenchEvent.timedInvoke
                      ++ [BenchEvent.memStop]
                    result := Except.ok
                      { model_name := basename model_path
                        avg_time := s.mean
                        var_time := s.var
                        min_time := s.min
                        max_time := s.max
                        peak_memory := (env.tracePeakDelta : ℚ) / (1024 * 1024) } }

/-- Global names the module binds at top level: its imports (lines
12-18) and its own definitions.  The name traceback is not among them,
although line 148 uses it. -/
def importedNames : List String :=
  ["os", "time", "argparse", "np", "tf", "Image", "tracemalloc",
   "ModelBenchmark", "main"]

/-- Evaluation of a global name: raises NameError when the name was
never bound in the module. -/
def evalGlobal (n : String) : Except PyError Unit :=
  if n ∈ importedNames then Except.ok () else Except.error (PyError.nameError n)

/-- Summary table of lines 151-157, modelled by the rows it prints, each
row identified by the model name it begins with; nothing is printed when
results is empty. -/
def summaryLines (results : List BenchResult) : List String :=
  match results with
  | [] => []
  | _ :: _ => "Benchmark Summary:" :: results.map (fun r => r.model_name)

/-- Loop body of run_all_benchmarks (lines 142-148).  Each model is
benchmarked inside try/except; on success its result is appended; on
failure the handler prints the diagnostic line and then evaluates the
global name traceback in order to call traceback.print_exc() - that
lookup raises NameError because traceback was never imported, and the
new exception propagates out of the loop.  Returns the tracemalloc flag,
the lines printed by the loop and either the collected results or the
propagated exception. -/
def benchLoop (world : String → ModelEnv) (self : ModelBenchmark) :
    List String → Bool → List BenchResult →
      Bool × List String × Except PyError (List BenchResult)
  | [], tracing, results => (tracing, [], Except.ok results)
  | path :: rest, tracing, results =>
      let out := benchmarkModel self path (world path) tracing
      match out.result with
      | Except.ok r => benchLoop world self rest out.tracingAfter (results ++ [r])
      | Except.error e =>
          let line := "Error benchmarking " ++ basename path ++ ": " ++ PyError.str e
          match evalGlobal ("traceback") with
          | Except.error ne => (out.tracingAfter, [line], Except.error ne)
          | Except.ok _ =>
              let cont := benchLoop world self rest out.tracingAfter results
              (cont.1, line :: cont.2.1, cont.2.2)

/-- Embedding of ModelBenchmark.run_all_benchmarks (lines 132-159): the
empty check and notice, the found-count line, the per-model loop, and
the summary over the successful results. -/
def runAllBenchmarks (world : String → ModelEnv) (self : ModelBenchmark)
    (tracingIn : Bool) : RunOutcome :=
  match self.models with
  | [] =>
      { selfAfter := self
        tracingAfter := tracingIn
        output := ["No models found in directory: " ++ self.model_dir]
        result := Except.ok [] }
  | m :: rest =>
      match benchLoop world self (m :: rest) tracingIn [] with
      | (tr2, lines, Except.error e) =>
          { selfAfter := self
            tracingAfter := tr2
            output := ("Found " ++ toString (m :: rest).length ++ " models to benchmark")
              :: lines
            result := Except.error e }
      | (tr2, lines, Except.ok results) =>
          { selfAfter := self
            tracingAfter := tr2
            output := (("Found " ++ toString (m :: rest).length ++ " models to benchmark")
              :: lines) ++ summaryLines results
            result := Except.ok results }

/-- Timing sequence collected on a fully successful run: one entry per
timed invocation, the duration of invocation warmup + k scaled into
milliseconds, in invocation order. -/
def successTimings (env : ModelEnv) (warmup iterations : Nat) : List ℚ :=
  ((List.range' warmup iterations).map env.invokeDuration).map (fun d => d * 1000)

theorem aggregateStats_ne_nil (ts : List ℚ) (h : ts ≠ []) :
    aggregateStats ts
      = Except.ok { mean := npMean ts, var := npVar ts, min := listMin ts, max := listMax ts } := by
  cases ts with
  | nil => exact absurd rfl h
  | cons t rest => rfl

theorem aggregateStats_error_inv (ts : List ℚ) (e : PyError)
    (h : aggregateStats ts = Except.error e) : e = emptyInputError := by
  cases ts with
  | nil => simpa [aggregateStats] using h.symm
  | cons t rest => simp [aggregateStats] at h

theorem runCallsTrace_all_ok (env : ModelEnv) :
    ∀ (n start : Nat), (∀ k, k < n → env.invokeOutcome (start + k) = none) →
      runCallsTrace env start n
        = (List.range' start n, Except.ok ((List.range' start n).map env.invokeDuration))
  | 0, start, _ => by simp [runCallsTrace]
  | n + 1, start, h => by
      have h0 : env.invokeOutcome start = none := by
        simpa using h 0 (Nat.succ_pos n)
      have ih := runCallsTrace_all_ok env n (start + 1) (fun k hk => by
        have hx := h (k + 1) (by omega)
        rwa [show start + (k + 1) = start + 1 + k by omega] at hx)
      simp [runCallsTrace, h0, ih, List.range'_succ]

theorem runCallsTrace_ok_inv (env : ModelEnv) :
    ∀ (n start : Nat) (ds : List ℚ),
      (runCallsTrace env start n).2 = Except.ok ds →
      runCallsTrace env start n
        = (List.range' start n, Except.ok ((List.range' start n).map env.invokeDuration))
  | 0, start, ds, _ => by simp [runCallsTrace]
  | n + 1, start, ds, h => by
      cases h0 : env.invokeOutcome start with
      | some msg => simp [runCallsTrace, h0] at h
      | none =>
          rcases hr : runCallsTrace env (start + 1) n with ⟨idxs, res⟩
          cases res with
          | error e => simp [runCallsTrace, h0, hr] at h
          | ok ds2 =>
              have ih := runCallsTrace_ok_inv env n (start + 1) ds2 (by rw [hr])
              rw [hr] at ih
              simp only [Prod.mk.injEq, Except.ok.injEq] at ih
              simp [runCallsTrace, h0, hr, List.range'_succ, ih.1, ih.2]

theorem inferenceTimes_all_ok (env : ModelEnv) (warmup iterations : Nat)
    (hinv : ∀ k, k < iterations → env.invokeOutcome (warmup + k) = none) :
    inferenceTimes env warmup iterations
      = Except.ok (successTimings env warmup iterations) := by
  have ht := runCallsTrace_all_ok env iterations warmup hinv
  simp [inferenceTimes, ht, successTimings]

theorem benchmarkModel_success (self : ModelBenchmark) (model_path : String)
    (env : ModelEnv) (b : Bool)
    (hload : env.loadError = none)
    (hinv : ∀ k, k < self.warmup + self.iterations → env.invokeOutcome k = none)
    (hit : 1 ≤ self.iterations) :
    benchmarkModel self model_path env b =
      { selfAfter := self
        tracingAfter := false
        trace := BenchEvent.load
          :: (List.range' 0 self.warmup).map BenchEvent.warmupInvoke
          ++ BenchEvent.memStart
          :: (List.range' self.warmup self.iterations).map BenchEvent.timedInvoke
          ++ [BenchEvent.memStop]
        result := Except.ok
          { model_name := basename model_path
            avg_time := npMean (successTimings env self.warmup self.iterations)
            var_time := npVar (successTimings env self.warmup self.iterations)
            min_time := listMin (successTimings env self.warmup self.iterations)
            max_time := listMax (successTimings env self.warmup self.iterations)
            peak_memory := (env.tracePeakDelta : ℚ) / (1024 * 1024) } } := by
  have hw := runCallsTrace_all_ok env self.warmup 0
    (fun k hk => by rw [Nat.zero_add]; exact hinv k (by omega))
  have ht := runCallsTrace_all_ok env self.iterations self.warmup
    (fun k hk => hinv (self.warmup + k) (by omega))
  have hne : successTimings env self.warmup self.iterations ≠ [] := by
    have hlen : (successTimings env self.warmup self.iterations).length = self.iterations := by
      simp [successTimings]
    intro hcon
    rw [hcon] at hlen
    simp at hlen
    omega
  have hagg := aggregateStats_ne_nil _ hne
  simp only [successTimings, List.map_map] at hagg
  simp [benchmarkModel, hload, hw, ht, successTimings, List.map_map, hagg]

theorem benchmarkModel_spec (self : ModelBenchmark) (p : String) (env : ModelEnv) (b : Bool) :
    (∀ r, (benchmarkModel self p env b).result = Except.ok r →
        (benchmarkModel self p env b).tracingAfter = false ∧
        r.peak_memory = (env.tracePeakDelta : ℚ) / (1024 * 1024)) ∧
    (BenchEvent.memStart ∉ (benchmarkModel self p env b).trace →
        (benchmarkModel self p env b).tracingAfter = b) ∧
    (∀ msg, BenchEvent.memStart ∈ (benchmarkModel self p env b).trace →
        (benchmarkModel self p env b).result = Except.error (PyError.inferenceError msg) →
        (benchmarkModel self p env b).tracingAfter = true) ∧
    (BenchEvent.memStart ∈ (benchmarkModel self p env b).trace →
      ∃ post, (benchmarkModel self p env b).trace
          = (BenchEvent.load :: (List.range' 0 self.warmup).map BenchEvent.warmupInvoke)
            ++ BenchEvent.memStart :: post
        ∧ ∀ k, BenchEvent.warmupInvoke k ∉ post) := by
  rcases hL : env.loadError with _ | msg
  case some =>
    have hbm : benchmarkModel self p env b =
        { selfAfter := self
          tracingAfter := b
          trace := [BenchEvent.load]
          result := Except.error (PyError.inferenceError msg) } := by
      simp [benchmarkModel, hL]
    rw [hbm]
    refine ⟨?_, ?_, ?_, ?_⟩ <;> simp
  case none =>
    rcases hW : runCallsTrace env 0 self.warmup with ⟨wIdxs, wRes⟩
    cases wRes with
    | error e =>
        have hbm : benchmarkModel self p env b =
            { selfAfter := self
              tracingAfter := b
              trace := BenchEvent.load :: wIdxs.map BenchEvent.warmupInvoke
              result := Except.error e } := by
          simp [benchmarkModel, hL, hW]
        rw [hbm]
        refine ⟨?_, ?_, ?_, ?_⟩ <;> simp
    | ok wds =>
        have hWfull := runCallsTrace_ok_inv env self.warmup 0 wds (by rw [hW])
        rw [hW] at hWfull
        simp only [Prod.mk.injEq, Except.ok.injEq] at hWfull
        rcases hT : runCallsTrace env self.warmup self.iterations with ⟨tIdxs, tRes⟩
        cases tRes with
        | error e =>
            have hbm : benchmarkModel self p env b =
                { selfAfter := self
                  tracingAfter := true
                  trace := BenchEvent.load :: wIdxs.map BenchEvent.warmupInvoke
                    ++ BenchEvent.memStart :: tIdxs.map BenchEvent.timedInvoke
                  result := Except.error e } := by
              simp [benchmarkModel, hL, hW, hT]
            rw [hbm]
            refine ⟨?_, ?_, ?_, ?_⟩
            · simp
            · intro hmem
              exact absurd (by simp : BenchEvent.memStart ∈
                BenchEvent.load :: wIdxs.map BenchEvent.warmupInvoke
                  ++ BenchEvent.memStart :: tIdxs.map BenchEvent.timedInvoke) hmem
            · intro m _ _; rfl
            · intro _
              refine ⟨tIdxs.map BenchEvent.timedInvoke, ?_, ?_⟩
              · rw [hWfull.1]
              · intro k; simp
        | ok durations =>
            cases hA : aggregateStats (durations.map (fun d => d * 1000)) with
            | error e =>
                have he := aggregateStats_error_inv _ _ hA
                have hbm : benchmarkModel self p env b =
                    { selfAfter := self
                      tracingAfter := false
                      trace := BenchEvent.load :: wIdxs.map BenchEvent.warmupInvoke
                        ++ BenchEvent.memStart :: tIdxs.map BenchEvent.timedInvoke
                        ++ [BenchEvent.memStop]
                      result := Except.error e } := by
                  simp [benchmarkModel, hL, hW, hT, hA]
                rw [hbm]
                refine ⟨?_, ?_, ?_, ?_⟩
                · simp
                · intro hmem
                  simp at hmem
                · intro m _ hres
                  rw [he] at hres
                  simp [emptyInputError] at hres
                · intro _
                  refine ⟨tIdxs.map BenchEvent.timedInvoke ++ [BenchEvent.memStop], ?_, ?_⟩
                  · rw [hWfull.1]; simp
                  · intro k; simp
            | ok s =>
                have hbm : benchmarkModel self p env b =
                    { selfAfter := self
                      tracingAfter := false
                      trace := BenchEvent.load :: wIdxs.map BenchEvent.warmupInvoke
                        ++ BenchEvent.memStart :: tIdxs.map BenchEvent.timedInvoke
                        ++ [BenchEvent.memStop]
                      result := Except.ok
                        { model_name := basename p
                          avg_time := s.mean
                          var_time := s.var
                          min_time := s.min
                          max_time := s.max
                          peak_memory := (env.tracePeakDelta : ℚ) / (1024 * 1024) } } := by
                  simp [benchmarkModel, hL, hW, hT, hA]
                rw [hbm]
                refine ⟨?_, ?_, ?_, ?_⟩
                · intro r hr
                  simp only [Except.ok.injEq] at hr
                  subst hr
                  exact ⟨rfl, rfl⟩
                · intro hmem
                  simp at hmem
                · intro m _ hres
                  simp at hres
                · intro _
                  refine ⟨tIdxs.map BenchEvent.timedInvoke ++ [BenchEvent.memStop], ?_, ?_⟩
                  · rw [hWfull.1]; simp
                  · intro k; simp

theorem foldl_min_le_init (l : List ℚ) : ∀ a : ℚ, l.foldl min a ≤ a := by
  induction l with
  | nil => intro a; simp
  | cons x xs ih => intro a; exact le_trans (ih (min a x)) (min_le_left a x)

theorem foldl_min_le_mem (l : List ℚ) : ∀ (a x : ℚ), x ∈ l → l.foldl min a ≤ x := by
  induction l with
  | nil => intro a x hx; cases hx
  | cons y ys ih =>
      intro a x hx
      rcases List.mem_cons.mp hx with h | h
      · subst h; exact le_trans (foldl_min_le_init ys (min a x)) (min_le_right a x)
      · exact ih (min a y) x h

theorem listMin_le (ts : List ℚ) (x : ℚ) (hx : x ∈ ts) : listMin ts ≤ x := by
  cases ts with
  | nil => cases hx
  | cons t rest =>
      rcases List.mem_cons.mp hx with h | h
      · subst h; exact foldl_min_le_init rest x
      · exact foldl_min_le_mem rest t x h

theorem init_le_foldl_max (l : List ℚ) : ∀ a : ℚ, a ≤ l.foldl max a := by
  induction l with
  | nil => intro a; simp
  | cons x xs ih => intro a; exact le_trans (le_max_left a x) (ih (max a x))

theorem mem_le_foldl_max (l : List ℚ) : ∀ (a x : ℚ), x ∈ l → x ≤ l.foldl max a := by
  induction l with
  | nil => intro a x hx; cases hx
  | cons y ys ih =>
      intro a x hx
      rcases List.mem_cons.mp hx with h | h
      · subst h; exact le_trans (le_max_right a x) (init_le_foldl_max ys (max a x))
      · exact ih (max a y) x h

theorem le_listMax (ts : List ℚ) (x : ℚ) (hx : x ∈ ts) : x ≤ listMax ts := by
  cases ts with
  | nil => cases hx
  | cons t rest =>
      rcases List.mem_cons.mp hx with h | h
      · subst h; exact init_le_foldl_max rest x
      · exact mem_le_foldl_max rest t x h

theorem mul_length_le_sum (l : List ℚ) (m : ℚ) (h : ∀ x ∈ l, m ≤ x) :
    m * (l.length : ℚ) ≤ l.sum := by
  induction l with
  | nil => simp
  | cons x xs ih =>
      have hx := h x (List.mem_cons_self x xs)
      have hxs := ih (fun y hy => h y (List.mem_cons_of_mem x hy))
      calc m * (((x :: xs).length : Nat) : ℚ) = m * (xs.length : ℚ) + m := by
            push_cast [List.length_cons]
            ring
        _ ≤ xs.sum + x := add_le_add hxs hx
        _ = (x :: xs).sum := by rw [List.sum_cons]; ring

theorem sum_le_mul_length (l : List ℚ) (m : ℚ) (h : ∀ x ∈ l, x ≤ m) :
    l.sum ≤ m * (l.length : ℚ) := by
  induction l with
  | nil => simp
  | cons x xs ih =>
      have hx := h x (List.mem_cons_self x xs)
      have hxs := ih (fun y hy => h y (List.mem_cons_of_mem x hy))
      calc (x :: xs).sum = xs.sum + x := by rw [List.sum_cons]; ring
        _ ≤ m * (xs.length : ℚ) + m := add_le_add hxs hx
        _ = m * (((x :: xs).length : Nat) : ℚ) := by
            push_cast [List.length_cons]
            ring

theorem listMin_le_npMean (ts : List ℚ) (h : ts ≠ []) : listMin ts ≤ npMean ts := by
  have hlen : 0 < (ts.length : ℚ) := by exact_mod_cast List.length_pos.mpr h
  rw [npMean, le_div_iff₀ hlen]
  exact mul_length_le_sum ts (listMin ts) (fun x hx => listMin_le ts x hx)

theorem npMean_le_listMax (ts : List ℚ) (h : ts ≠ []) : npMean ts ≤ listMax ts := by
  have hlen : 0 < (ts.length : ℚ) := by exact_mod_cast List.length_pos.mpr h
  rw [npMean, div_le_iff₀ hlen]
  exact sum_le_mul_length ts (listMax ts) (fun x hx => le_listMax ts x hx)

theorem sum_of_const (l : List ℚ) (c : ℚ) (h : ∀ x ∈ l, x = c) :
    l.sum = c * (l.length : ℚ) := by
  induction l with
  | nil => simp
  | cons x xs ih =>
      have hx := h x (List.mem_cons_self x xs)
      have hxs := ih (fun y hy => h y (List.mem_cons_of_mem x hy))
      rw [List.sum_cons, hx, hxs]
      push_cast [List.length_cons]
      ring

theorem npVar_zero_of_const (ts : List ℚ) (h : ∀ x ∈ ts, ∀ y ∈ ts, x = y) :
    npVar ts = 0 := by
  cases ts with
  | nil => simp [npVar]
  | cons t rest =>
      have hc : ∀ x ∈ t :: rest, x = t :=
        fun x hx => h x hx t (List.mem_cons_self t rest)
      have hlen : ((t :: rest).length : ℚ) ≠ 0 := by
        push_cast [List.length_cons]
        positivity
      have hmean : npMean (t :: rest) = t := by
        rw [npMean, sum_of_const _ t hc]
        field_simp
      have hz : ((t :: rest).map (fun x => (x - npMean (t :: rest)) ^ 2)).sum = 0 := by
        apply List.sum_eq_zero
        intro y hy
        rcases List.mem_map.mp hy with ⟨x, hx, rfl⟩
        rw [hmean, hc x hx]
        ring
      rw [npVar, hz, zero_div]

theorem benchmarkModel_selfAfter (self : ModelBenchmark) (p : String) (env : ModelEnv)
    (b : Bool) : (benchmarkModel self p env b).selfAfter = self := by
  unfold benchmarkModel
  repeat' split
  all_goals rfl

theorem runAllBenchmarks_selfAfter (world : String → ModelEnv) (self : ModelBenchmark)
    (b : Bool) : (runAllBenchmarks world self b).selfAfter = self := by
  unfold runAllBenchmarks
  repeat' split
  all_goals rfl

/-- Oracle of a healthy artifact: loading succeeds, every invocation
succeeds in one second, and tracemalloc observes a peak delta of
2097152 bytes (2 MiB) over the timed window. -/
def envHealthy : ModelEnv :=
  { loadError := none
    inputShape := [1, 224, 224, 3]
    inputDtype := DType.float32
    invokeOutcome := fun _ => none
    invokeDuration := fun _ => 1
    tracePeakDelta := 2097152
    randStream := fun _ => 0 }

/-- Oracle of an artifact whose loading raises. -/
def envLoadFail : ModelEnv :=
  { envHealthy with loadError := some ("unsupported model format") }

/-- Oracle of an artifact whose very first invocation raises. -/
def envFirstInvokeFail : ModelEnv :=
  { envHealthy with invokeOutcome := fun k => if k = 0 then some ("invoke raised") else none }

/-- Oracle of an artifact that declares a uint8 input tensor. -/
def envUint8 : ModelEnv :=
  { envHealthy with inputShape := [1, 10], inputDtype := DType.uint8 }

/-- Harness over a directory listing with two artifacts and one
non-artifact file, two iterations and one warm-up invocation. -/
def selfTwo : ModelBenchmark :=
  ModelBenchmark.init ("models") 2 1 ["model_a.tflite", "readme.txt", "model_b.tflite"]

/-- Harness with one iteration and no warm-up invocations. -/
def selfOneNoWarmup : ModelBenchmark :=
  ModelBenchmark.init ("models") 1 0 ["model_b.tflite"]

/-- Harness configured with iterations = 0. -/
def selfZeroIter : ModelBenchmark :=
  ModelBenchmark.init ("models") 0 1 ["model_b.tflite"]

/-- World in which the first artifact fails to load and every other
artifact is healthy. -/
def worldMixed : String → ModelEnv := fun path =>
  if path = "models/model_a.tflite" then envLoadFail else envHealthy

theorem envHealthy_result :
    (benchmarkModel selfTwo ("models/model_b.tflite") envHealthy false).result
      = Except.ok
          { model_name := "model_b.tflite"
            avg_time := 1000
            var_time := 0
            min_time := 1000
            max_time := 1000
            peak_memory := 2 } := by
  norm_num [benchmarkModel, envHealthy, selfTwo, ModelBenchmark.init, findModels,
    runCallsTrace, aggregateStats, npMean, npVar, listMin, listMax]
  decide

/-- C1: the claim states that a per-artifact benchmarking failure is
reported with the artifact name and its cause, recorded, and that the
batch then continues through all remaining artifacts with
run_all_benchmarks returning control normally.  Evaluating the embedded
run_all_benchmarks on a directory holding a failing first artifact and a
healthy second artifact shows what the code actually does: the except
handler prints the diagnostic line and then evaluates the global name
traceback (line 148), which was never imported, so the handler itself
raises NameError; the batch aborts before the second artifact is
attempted and run_all_benchmarks propagates the NameError instead of
returning.  This contradicts the intent of the surrounding try/except
and is a defect of the code, not of the claim. -/
theorem c1_per_artifact_failure_aborts_batch :
    (runAllBenchmarks worldMixed selfTwo false).result
        = Except.error (PyError.nameError ("traceback"))
      ∧ (runAllBenchmarks worldMixed selfTwo false).output
        = ["Found 2 models to benchmark",
           "Error benchmarking model_a.tflite: unsupported model format"] := by
  constructor <;> decide

/-- C2: for warm-up count W and iteration count N >= 1, on a run in
which loading succeeds and no invocation raises, benchmark_model
performs exactly the W warm-up invocations 0..W-1 followed by exactly
the N timed invocations W..W+N-1 (the event trace lists them in program
order), the collected timing sequence holds exactly N values, the k-th
being the duration of invocation W+k scaled to milliseconds (invocation
order), and the run returns a result. -/
theorem c2_warmup_then_timed_counts (self : ModelBenchmark) (p : String)
    (env : ModelEnv) (b : Bool)
    (hit : 1 ≤ self.iterations)
    (hload : env.loadError = none)
    (hinv : ∀ k, k < self.warmup + self.iterations → env.invokeOutcome k = none) :
    (benchmarkModel self p env b).trace
        = BenchEvent.load
          :: (List.range' 0 self.warmup).map BenchEvent.warmupInvoke
          ++ BenchEvent.memStart
          :: (List.range' self.warmup self.iterations).map BenchEvent.timedInvoke
          ++ [BenchEvent.memStop]
      ∧ inferenceTimes env self.warmup self.iterations
        = Except.ok (successTimings env self.warmup self.iterations)
      ∧ successTimings env self.warmup self.iterations
        = (List.range' self.warmup self.iterations).map (fun k => env.invokeDuration k * 1000)
      ∧ (successTimings env self.warmup self.iterations).length = self.iterations
      ∧ ∃ r, (benchmarkModel self p env b).result = Except.ok r := by
  have hbm := benchmarkModel_success self p env b hload hinv hit
  refine ⟨by rw [hbm],
    inferenceTimes_all_ok env _ _ (fun k hk => hinv _ (by omega)), ?_, ?_, ?_⟩
  · simp only [successTimings, List.map_map]
    rfl
  · simp [successTimings]
  · exact ⟨_, by rw [hbm]⟩

/-- Witness for C2 at a healthy artifact with W = 1 and N = 2. -/
theorem c2_witness :
    ∃ r, (benchmarkModel selfTwo ("models/model_b.tflite") envHealthy false).result
      = Except.ok r := by
  have h := c2_warmup_then_timed_counts selfTwo ("models/model_b.tflite") envHealthy false
    (by decide) rfl (fun k hk => rfl)
  exact h.2.2.2.2

/-- C3: the statistics aggregation step applied to a timing sequence of
length zero fails with the empty-input error (the ValueError that np.min
raises, which the spec taxonomy names EmptyInputError) and produces no
statistics record; consequently, with iterations = 0 every artifact
whose run reaches the aggregation step makes benchmark_model raise that
error. -/
theorem c3_zero_iterations_empty_aggregation :
    aggregateStats ([] : List ℚ) = Except.error emptyInputError
      ∧ ∀ (self : ModelBenchmark) (p : String) (env : ModelEnv) (b : Bool),
          self.iterations = 0 →
          env.loadError = none →
          (∀ k, k < self.warmup → env.invokeOutcome k = none) →
          (benchmarkModel self p env b).result = Except.error emptyInputError := by
  refine ⟨rfl, ?_⟩
  intro self p env b hit hload hw
  have hwt := runCallsTrace_all_ok env self.warmup 0
    (fun k hk => by rw [Nat.zero_add]; exact hw k hk)
  have ht0 : runCallsTrace env self.warmup self.iterations = ([], Except.ok []) := by
    rw [hit]
    simp [runCallsTrace]
  simp [benchmarkModel, hload, hwt, ht0, aggregateStats]

/-- Witness for C3 at a healthy artifact configured with iterations = 0. -/
theorem c3_witness :
    (benchmarkModel selfZeroIter ("models/model_b.tflite") envHealthy false).result
      = Except.error emptyInputError :=
  c3_zero_iterations_empty_aggregation.2 selfZeroIter ("models/model_b.tflite")
    envHealthy false (by decide) rfl (fun k hk => rfl)

/-- C4 counterexample: the claim states that the memory-tracking
facility is released on every exit path of a single artifact benchmark,
including the path where a timed invocation raises.  With no warm-up,
one iteration and an oracle whose single timed invocation raises,
benchmark_model exits by exception with tracemalloc still active,
because tracemalloc.stop on line 107 is not protected by any
try/finally; the facility would remain active into the next artifact. -/
theorem c4_counterexample :
    (benchmarkModel selfOneNoWarmup ("models/model_b.tflite") envFirstInvokeFail false).tracingAfter
        = true
      ∧ (benchmarkModel selfOneNoWarmup ("models/model_b.tflite") envFirstInvokeFail false).result
        = Except.error (PyError.inferenceError ("invoke raised")) := by
  constructor <;> decide

/-- C4 (amended): on the exit paths of benchmark_model the tracemalloc
facility behaves as follows: when the run returns a result the facility
has been stopped; on exits taken before the timed window opens (loading
or a warm-up invocation raising) the facility state is untouched; but
when a timed invocation raises after the window opened, benchmark_model
exits with the facility still active - release is not guaranteed on the
failure path inside the timed window. -/
theorem c4_tracemalloc_amended (self : ModelBenchmark) (p : String) (env : ModelEnv)
    (b : Bool) :
    (∀ r, (benchmarkModel self p env b).result = Except.ok r →
        (benchmarkModel self p env b).tracingAfter = false)
      ∧ (BenchEvent.memStart ∉ (benchmarkModel self p env b).trace →
          (benchmarkModel self p env b).tracingAfter = b)
      ∧ (∀ msg, BenchEvent.memStart ∈ (benchmarkModel self p env b).trace →
          (benchmarkModel self p env b).result = Except.error (PyError.inferenceError msg) →
          (benchmarkModel self p env b).tracingAfter = true) := by
  have h := benchmarkModel_spec self p env b
  exact ⟨fun r hr => (h.1 r hr).1, h.2.1, h.2.2.1⟩

/-- Witness for the amended C4 at a fully successful run: the facility
is stopped when benchmark_model returns. -/
theorem c4_witness :
    (benchmarkModel selfTwo ("models/model_b.tflite") envHealthy false).tracingAfter
      = false :=
  (c4_tracemalloc_amended selfTwo ("models/model_b.tflite") envHealthy false).1 _
    envHealthy_result

/-- C5 counterexample: the claim states that the peak memory delta
stored in the result record is expressed in bytes.  On a successful run
whose observed delta is 2097152 bytes the stored field holds 2 (the
value already divided by 1024 * 1024 on line 129 of the source), and 2
is not the byte count 2097152. -/
theorem c5_counterexample :
    (benchmarkModel selfTwo ("models/model_b.tflite") envHealthy false).result
        = Except.ok
          { model_name := "model_b.tflite"
            avg_time := 1000
            var_time := 0
            min_time := 1000
            max_time := 1000
            peak_memory := 2 }
      ∧ ((2 : ℚ) ≠ ((2097152 : Nat) : ℚ)) := by
  refine ⟨envHealthy_result, ?_⟩
  norm_num

/-- C5 (amended): the peak memory value stored in every successful
result record is the tracemalloc delta converted to megabytes - the
byte count divided by 1024 * 1024 - and the summary table prints this
stored megabyte value directly; no byte-valued figure is stored. -/
theorem c5_peak_memory_megabytes (self : ModelBenchmark) (p : String) (env : ModelEnv)
    (b : Bool) (r : BenchResult)
    (h : (benchmarkModel self p env b).result = Except.ok r) :
    r.peak_memory = (env.tracePeakDelta : ℚ) / (1024 * 1024) :=
  ((benchmarkModel_spec self p env b).1 r h).2

/-- Witness for the amended C5 at a delta of 2097152 bytes. -/
theorem c5_witness :
    ∃ r, (benchmarkModel selfTwo ("models/model_b.tflite") envHealthy false).result
        = Except.ok r
      ∧ r.peak_memory = ((2097152 : Nat) : ℚ) / (1024 * 1024) :=
  ⟨_, envHealthy_result,
    c5_peak_memory_megabytes selfTwo ("models/model_b.tflite") envHealthy false _
      envHealthy_result⟩

/-- C6 counterexample: the claim states that the synthesized input
element type matches the declared input element type.  For an artifact
declaring a uint8 input the synthesized tensor is float32 (the source
casts with astype(np.float32) on lines 65 and 68 whatever the declared
dtype is), which differs from the declared type. -/
theorem c6_counterexample :
    (synthesizeInput envUint8.randStream envUint8.inputShape).dtype
      ≠ envUint8.inputDtype := by decide

/-- C6 (amended): the synthesized input element type is always float32,
for rank-4 shapes and all other ranks alike, regardless of the declared
element type; it matches the declared type exactly when the declared
type is float32. -/
theorem c6_input_always_float32 (rand : Nat → ℚ) (input_shape : List Nat)
    (declared : DType) :
    (synthesizeInput rand input_shape).dtype = DType.float32
      ∧ ((synthesizeInput rand input_shape).dtype = declared
          ↔ declared = DType.float32) := by
  have h1 : (synthesizeInput rand input_shape).dtype = DType.float32 := by
    unfold synthesizeInput
    split <;> rfl
  exact ⟨h1, by rw [h1]; exact ⟨fun h => h.symm, fun h => h.symm⟩⟩

/-- C7: the synthesized input has exactly the declared shape (the shape
field is the declared dimension list itself), its element list is one
fresh draw of the random stream per element - the formal counterpart of
the values being independently drawn - and whenever the random source
produces values in the interval from 0 inclusive to 1 exclusive, as
np.random.random does, every element of the synthesized input lies in
that interval. -/
theorem c7_shape_and_uniform_values (rand : Nat → ℚ) (input_shape : List Nat) :
    (synthesizeInput rand input_shape).shape = input_shape
      ∧ (synthesizeInput rand input_shape).values
        = (List.range input_shape.prod).map rand
      ∧ ((∀ i, 0 ≤ rand i ∧ rand i < 1) →
          ∀ v ∈ (synthesizeInput rand input_shape).values, 0 ≤ v ∧ v < 1) := by
  have h1 : (synthesizeInput rand input_shape).shape = input_shape := by
    unfold synthesizeInput
    split <;> rfl
  have h2 : (synthesizeInput rand input_shape).values
      = (List.range input_shape.prod).map rand := by
    unfold synthesizeInput
    split <;> rfl
  refine ⟨h1, h2, ?_⟩
  intro hr v hv
  rw [h2] at hv
  rcases List.mem_map.mp hv with ⟨i, _, rfl⟩
  exact hr i

/-- Witness for C7 at the constant one-half stream and a rank-4 shape. -/
theorem c7_witness :
    (synthesizeInput (fun _ => (1 : ℚ) / 2) [1, 224, 224, 3]).shape = [1, 224, 224, 3]
      ∧ ∀ v ∈ (synthesizeInput (fun _ => (1 : ℚ) / 2) [1, 224, 224, 3]).values,
          0 ≤ v ∧ v < 1 := by
  have h := c7_shape_and_uniform_values (fun _ => (1 : ℚ) / 2) [1, 224, 224, 3]
  exact ⟨h.1, h.2.2 (fun i => ⟨by norm_num, by norm_num⟩)⟩

/-- C8: whenever the aggregation step of benchmark_model produces a
statistics record from a non-empty timing sequence, the record satisfies
min less-or-equal mean less-or-equal max, and when all timings in the
sequence are equal the population variance is zero - hence the reported
population standard deviation, its square root, is zero as well. -/
theorem c8_stats_bounds (ts : List ℚ) (s : NpStats)
    (h : aggregateStats ts = Except.ok s) :
    s.min ≤ s.mean ∧ s.mean ≤ s.max
      ∧ ((∀ x ∈ ts, ∀ y ∈ ts, x = y) → s.var = 0) := by
  cases ts with
  | nil => simp [aggregateStats] at h
  | cons t rest =>
      simp only [aggregateStats, Except.ok.injEq] at h
      subst h
      refine ⟨listMin_le_npMean _ (List.cons_ne_nil t rest),
        npMean_le_listMax _ (List.cons_ne_nil t rest), ?_⟩
      intro hall
      exact npVar_zero_of_const _ hall

/-- Witness for C8 on the constant timing sequence of two entries. -/
theorem c8_witness :
    ∃ s, aggregateStats [(3 : ℚ), 3] = Except.ok s
      ∧ s.min ≤ s.mean ∧ s.mean ≤ s.max ∧ s.var = 0 := by
  have hagg : aggregateStats [(3 : ℚ), 3]
      = Except.ok
          { mean := npMean [(3 : ℚ), 3]
            var := npVar [(3 : ℚ), 3]
            min := listMin [(3 : ℚ), 3]
            max := listMax [(3 : ℚ), 3] } := rfl
  have h := c8_stats_bounds [(3 : ℚ), 3] _ hagg
  exact ⟨_, hagg, h.1, h.2.1, h.2.2 (by decide)⟩

/-- C9: whenever the memory measurement window opens at all (the
tracemalloc start event is in the trace), the trace decomposes as the
load event followed by exactly the warmup warm-up invocations 0..W-1 and
only then the window-opening event, with no warm-up invocation occurring
after it: allocations of loading and warm-up precede the baseline
capture and are excluded from the measured window. -/
theorem c9_window_after_warmup (self : ModelBenchmark) (p : String) (env : ModelEnv)
    (b : Bool)
    (hmem : BenchEvent.memStart ∈ (benchmarkModel self p env b).trace) :
    ∃ post, (benchmarkModel self p env b).trace
        = (BenchEvent.load :: (List.range' 0 self.warmup).map BenchEvent.warmupInvoke)
          ++ BenchEvent.memStart :: post
      ∧ ∀ k, BenchEvent.warmupInvoke k ∉ post :=
  (benchmarkModel_spec self p env b).2.2.2 hmem

/-- Witness for C9 on a fully successful run with one warm-up
invocation and two timed invocations. -/
theorem c9_witness :
    ∃ post, (benchmarkModel selfTwo ("models/model_b.tflite") envHealthy false).trace
        = (BenchEvent.load
            :: (List.range' 0 selfTwo.warmup).map BenchEvent.warmupInvoke)
          ++ BenchEvent.memStart :: post
      ∧ ∀ k, BenchEvent.warmupInvoke k ∉ post :=
  c9_window_after_warmup selfTwo ("models/model_b.tflite") envHealthy false (by decide)

/-- C10: neither benchmark_model nor run_all_benchmarks mutates the
harness configuration or the discovered artifact list: the fields
model_dir, iterations, warmup and models of the ModelBenchmark object
are unchanged by both calls, so every artifact of one run is benchmarked
with the warm-up and iteration counts and the artifact list fixed at
construction time. -/
theorem c10_config_not_mutated (self : ModelBenchmark) (p : String) (env : ModelEnv)
    (world : String → ModelEnv) (b b2 : Bool) :
    ((benchmarkModel self p env b).selfAfter.model_dir = self.model_dir
      ∧ (benchmarkModel self p env b).selfAfter.iterations = self.iterations
      ∧ (benchmarkModel self p env b).selfAfter.warmup = self.warmup
      ∧ (benchmarkModel self p env b).selfAfter.models = self.models)
    ∧ ((runAllBenchmarks world self b2).selfAfter.model_dir = self.model_dir
      ∧ (runAllBenchmarks world self b2).selfAfter.iterations = self.iterations
      ∧ (runAllBenchmarks world self b2).selfAfter.warmup = self.warmup
      ∧ (runAllBenchmarks world self b2).selfAfter.models = self.models) := by
  have h1 := benchmarkModel_selfAfter self p env b
  have h2 := runAllBenchmarks_selfAfter world self b2
  rw [h1, h2]
  exact ⟨⟨rfl, rfl, rfl, rfl⟩, rfl, rfl, rfl, rfl⟩
